import Mathlib

/-!
Shallow embedding of `lambda_function.py`, the single source file of the
geoglows-api-python repository: an AWS-Lambda-style request router that
serves retrospective river-flow data, daily/monthly climatologies and
return periods from two remote zarr stores.

Conventions of the embedding:
* Python dicts of request parameters become association lists (`Params`);
  Python truthiness of a dict / string is modelled by emptiness tests.
* Python exceptions become `Except Exc`; `Exc.str` is `str(e)`.
* pandas timestamps become `Date` records ordered lexicographically;
  `pd.to_datetime` on the ISO `YYYY-MM-DD` strings used by the API becomes
  `parseDate`.
* The remote zarr stores are passed as explicit association lists, since
  they are external inputs to the program.
* Numeric cell values are `Rat`; the textual rendering of a number in CSV
  output (`ratToString`) abstracts pandas float formatting, which no
  verified property depends on.
-/

/-- A Python exception, carrying exactly the text that `str(e)` renders,
which is what `lambda_handler` interpolates into its catch-all envelope. -/
inductive Exc where
  | valueError (msg : String)
  | keyError (rendered : String)
  | indexError
deriving DecidableEq

deriving instance DecidableEq for Except

/-- The rendering `str(e)` of an exception: a `ValueError`'s message, a
`KeyError`'s repr of the missing key, and Python's fixed text for an
`IndexError` from list indexing. -/
def Exc.str : Exc → String
  | .valueError m => m
  | .keyError m => m
  | .indexError => "list index out of range"

/-- A response dict `{<codeKey>: <code>, 'body': <body>}`.  The source
writes the key `statusCode` on its success paths and the misspelled key
`statesCode` on every error path, so the key is part of the model. -/
structure Response where
  codeKey : String
  code : Nat
  body : String
deriving DecidableEq

/-- A query-parameter mapping (Python dict of strings). -/
abbrev Params := List (String × String)

/-- `params.get(k, False)` followed by a truthiness test: yields the value
only when the key is present and the value is a non-empty string. -/
def pgetTruthy (ps : Params) (k : String) : Option String :=
  match ps.lookup k with
  | some v => if v = "" then none else some v
  | none => none

/-- Value of one decimal digit character. -/
def charDigit (c : Char) : Option Nat :=
  if c.isDigit then some (c.toNat - 48) else none

/-- Accumulating decimal parse of a digit list. -/
def digitsToNatAux (acc : Nat) : List Char → Option Nat
  | [] => some acc
  | c :: cs =>
    match charDigit c with
    | some d => digitsToNatAux (acc * 10 + d) cs
    | none => none

/-- Decimal parse of a non-empty digit list. -/
def pyNatDigits : List Char → Option Nat
  | [] => none
  | l => digitsToNatAux 0 l

/-- Parse of an unsigned decimal string (leading zeros allowed, as in
Python's `int`). -/
def pyNat (s : String) : Option Nat := pyNatDigits s.data

/-- Python `int(s)` on the decimal (optionally negated) literals this API
receives; exotic accepted forms (surrounding blanks, `+`, underscores) are
not exercised by any request the program distinguishes. -/
def pyInt (s : String) : Option Int :=
  match s.data with
  | '-' :: rest => (pyNatDigits rest).map (fun n => -(n : Int))
  | l => (pyNatDigits l).map (fun n => (n : Int))

/-- Splitting a character list at every occurrence of a separator. -/
def splitCharList (sep : Char) : List Char → List String
  | [] => [""]
  | c :: cs =>
    let rest := splitCharList sep cs
    if c = sep then "" :: rest
    else
      match rest with
      | r :: rs => (String.singleton c ++ r) :: rs
      | [] => [String.singleton c]

/-- Python `s.split('/')` (single-character separator), e.g.
`"/v2/x".split('/') = ['', 'v2', 'x']` and `"".split('/') = ['']`. -/
def pySplit (s : String) (sep : Char) : List String := splitCharList sep s.data

/-- The `http` dict inside `requestContext`, of which the source reads
only `path`. -/
structure Http where
  path : String
deriving DecidableEq

/-- The `requestContext` dict: the source reads its `http` member and, in
three of the four handlers, its `queryStringParameters` member.  `none`
models an absent key. -/
structure RequestContext where
  http : Option Http
  queryStringParameters : Option Params
deriving DecidableEq

/-- The Lambda event dict, restricted to the members the source reads. -/
structure Event where
  requestContext : Option RequestContext
  queryStringParameters : Option Params
deriving DecidableEq

/-- A pandas timestamp at the daily granularity stored in the zarr index. -/
structure Date where
  year : Nat
  month : Nat
  day : Nat
deriving DecidableEq

/-- Chronological (lexicographic year, month, day) comparison of
timestamps, the order pandas uses for `df.index <= t` / `df.index >= t`. -/
def Date.le (a b : Date) : Bool :=
  Nat.blt a.year b.year ||
    (a.year == b.year &&
      (Nat.blt a.month b.month ||
        (a.month == b.month && Nat.ble a.day b.day)))

/-- `pd.to_datetime` on the `YYYY-MM-DD` strings of this API. -/
def parseDate (s : String) : Option Date :=
  match pySplit s '-' with
  | [ys, ms, ds] =>
    match pyNat ys, pyNat ms, pyNat ds with
    | some y, some m, some d => some ⟨y, m, d⟩
    | _, _, _ => none
  | _ => none

/-- Abstraction of pandas numeric rendering in CSV cells; no verified
property inspects the digits of a data cell. -/
def ratToString (q : Rat) : String :=
  if q.den = 1 then toString q.num else toString q.num ++ "/" ++ toString q.den

/-- A pandas DataFrame with a named index of type `ι`, string column
labels, and rational cells. -/
structure Frame (ι : Type) where
  indexName : String
  cols : List String
  rows : List (ι × List Rat)
deriving DecidableEq

/-- The header row written by `to_csv`: the index name is included only
when `index=True`. -/
def Frame.csvHeader (df : Frame ι) (index : Bool) : String :=
  String.intercalate "," (if index then df.indexName :: df.cols else df.cols)

/-- The data lines written by `to_csv`, one per row. -/
def Frame.csvLines (df : Frame ι) (render : ι → String) (index : Bool) : List String :=
  df.rows.map (fun r =>
    String.intercalate "," (if index then render r.1 :: r.2.map ratToString else r.2.map ratToString))

/-- pandas `DataFrame.to_csv`: header line then one line per row, each
line terminated by a newline; `index=False` omits the index column. -/
def Frame.to_csv (df : Frame ι) (render : ι → String) (index : Bool) : String :=
  df.csvHeader index ++ "\n" ++ String.join ((df.csvLines render index).map (fun l => l ++ "\n"))

/-- pandas `DataFrame.to_json(index=False)` with the default orient
(`columns`) raises `ValueError`: per the pandas documentation the
`columns` orient does not support `index=False` (only the `split` and
`table` orients do). -/
def Frame.to_json_noindex (df : Frame ι) : Except Exc String :=
  .error (Exc.valueError
    "\x27index=False\x27 is only valid when \x27orient\x27 is \x27split\x27 or \x27table\x27")

/-- The `if params.get('format', False): ... else: to_csv` block that ends
each of the four handlers: CSV by default, CSV for `format=csv`,
`to_json(index=False)` for `format=json`, bare `raise ValueError()`
(whose `str` is empty) otherwise. -/
def formatOutput (df : Frame ι) (render : ι → String) (params : Params) : Except Exc String :=
  match pgetTruthy params "format" with
  | some fmt =>
    if fmt = "csv" then .ok (df.to_csv render false)
    else if fmt = "json" then df.to_json_noindex
    else .error (Exc.valueError "")
  | none => .ok (df.to_csv render false)

/-- The time series stored for one reach in `retrospective.zarr`. -/
abbrev Series := List (Date × Rat)

/-- The `retrospective.zarr` store: flow series keyed by `rivid`. -/
abbrev RetroStore := List (Int × Series)

/-- The `return-periods.zarr` store: for each `rivid` the frame that
`open_zarr(...).sel(rivid=reach_id).to_dataframe()` produces. -/
abbrev RPStore := List (Int × Frame String)

/-- `.sel(rivid=reach_id)`: keyed lookup that raises `KeyError` when the
reach is absent from the store's index. -/
def lookupStore (store : List (Int × α)) (k : Int) : Option α :=
  (store.find? (fun p => p.1 == k)).map (fun p => p.2)

/-- The frame built by `open_zarr(...).sel(rivid=reach_id).to_pandas()
.reset_index().set_index('time').pivot(columns='rivid', values='Qout')`:
time-indexed, with a single column labelled by the `rivid` value itself
(the pivot's column labels are the rivid values, not the name `Qout`). -/
def retroFrame (reach_id : Int) (series : Series) : Frame Date :=
  { indexName := "time"
    cols := [toString reach_id]
    rows := series.map (fun p => (p.1, [p.2])) }

/-- The two `if params.get(...)` date filters of `_retrospective`, in
source order: the `end_date` upper bound is applied first, then the
`start_date` lower bound, both inclusive; an unparsable date string makes
`pd.to_datetime` raise. -/
def filterDates (params : Params) (df : Frame Date) : Except Exc (Frame Date) :=
  match
    (match pgetTruthy params "end_date" with
     | some s =>
       match parseDate s with
       | some ed => Except.ok { df with rows := df.rows.filter (fun r => Date.le r.1 ed) }
       | none => Except.error (Exc.valueError ("could not parse date " ++ s))
     | none => Except.ok df) with
  | .error e => .error e
  | .ok df1 =>
    match pgetTruthy params "start_date" with
    | some s =>
      match parseDate s with
      | some sd => .ok { df1 with rows := df1.rows.filter (fun r => Date.le sd r.1) }
      | none => .error (Exc.valueError ("could not parse date " ++ s))
    | none => .ok df1

/-- `_retrospective`: open the retrospective store, select the reach
(raising `KeyError` when absent), pivot to a time-indexed single-column
frame, then apply the optional date filters. -/
def _retrospective (store : RetroStore) (reach_id : Int) (params : Params) :
    Except Exc (Frame Date) :=
  match lookupStore store reach_id with
  | none => .error (Exc.keyError (toString reach_id))
  | some series => filterDates params (retroFrame reach_id series)

/-- `event.get("queryStringParameters", False)` with Python truthiness:
the handler's params are the top-level mapping when present and
non-empty, `{}` otherwise. -/
def getParamsTop (event : Event) : Params :=
  match event.queryStringParameters with
  | some ps => if ps.isEmpty then [] else ps
  | none => []

/-- `event["requestContext"].get("queryStringParameters", False)` with
Python truthiness, given the `requestContext` dict. -/
def getParamsRC (rc : RequestContext) : Params :=
  match rc.queryStringParameters with
  | some ps => if ps.isEmpty then [] else ps
  | none => []

/-- Index rendering for the retrospective time index (unused by the
`index=False` serializations the source performs). -/
def dateToString (dt : Date) : String :=
  toString dt.year ++ "-" ++ toString dt.month ++ "-" ++ toString dt.day

/-- JSON escaping of one character inside a JSON string literal. -/
def jsonEscapeChar (c : Char) : String :=
  if c = '"' then "\\\""
  else if c = '\\' then "\\\\"
  else if c = '\n' then "\\n"
  else if c = '\t' then "\\t"
  else if c = '\r' then "\\r"
  else String.singleton c

/-- `json.dumps` applied to a Python string: the quoted, escaped JSON
string literal.  This is the double encoding each handler applies to its
already-formatted table text. -/
def jsonEncodeString (s : String) : String :=
  "\"" ++ String.join (s.toList.map jsonEscapeChar) ++ "\""

/-- One `"key": value` member of a JSON object. -/
def jsonKV (k v : String) : String := jsonEncodeString k ++ ": " ++ v

/-- `json.dumps` of a parameter mapping. -/
def jsonParams (ps : Params) : String :=
  "\x7b" ++ String.intercalate ", " (ps.map (fun p => jsonKV p.1 (jsonEncodeString p.2))) ++ "\x7d"

/-- `json.dumps(event)`: the JSON rendering of the event dict restricted
to the members the model carries, used by the dispatcher's fall-through
200 branch that echoes the raw input back. -/
def jsonDumps (event : Event) : String :=
  let rcFields : RequestContext → List String := fun rc =>
    (match rc.http with
     | some h => [jsonKV "http" ("\x7b" ++ jsonKV "path" (jsonEncodeString h.path) ++ "\x7d")]
     | none => []) ++
    (match rc.queryStringParameters with
     | some ps => [jsonKV "queryStringParameters" (jsonParams ps)]
     | none => [])
  let fields :=
    (match event.requestContext with
     | some rc => [jsonKV "requestContext" ("\x7b" ++ String.intercalate ", " (rcFields rc) ++ "\x7d")]
     | none => []) ++
    (match event.queryStringParameters with
     | some ps => [jsonKV "queryStringParameters" (jsonParams ps)]
     | none => [])
  "\x7b" ++ String.intercalate ", " fields ++ "\x7d"

/-- Python's repr of a list of strings, interpolated by the f-string
`"No V2 in {path}"`. -/
def pyListRepr (l : List String) : String :=
  "[" ++ String.intercalate ", " (l.map (fun s => "\x27" ++ s ++ "\x27")) ++ "]"

/-- `retrospective`: reject paths without a third segment (422), read the
top-level query parameters, parse the reach id (422 is `statesCode` in the
source; a non-integer id yields 400), fetch and filter the series, format
it, and wrap the formatted text as a JSON-encoded string in a
`statusCode: 200` envelope. -/
def retrospective (path : List String) (event : Event) (store : RetroStore) :
    Except Exc Response :=
  if path.length ≤ 2 then
    .ok { codeKey := "statesCode", code := 422, body := "Bad request: No reachID specified" }
  else
    let params := getParamsTop event
    let pid := path.getD 2 ""
    match pyInt pid with
    | none =>
      .ok { codeKey := "statesCode", code := 400
            body := "Bad request: couldn\x27t make " ++ pid ++ " into an integer" }
    | some reach_id =>
      match _retrospective store reach_id params with
      | .error e => .error e
      | .ok df =>
        match formatOutput df dateToString params with
        | .error e => .error e
        | .ok output =>
          .ok { codeKey := "statusCode", code := 200, body := jsonEncodeString output }

/-- Zero-padded two-digit rendering used by `strftime`. -/
def pad2 (n : Nat) : String :=
  if n < 10 then "0" ++ toString n else toString n

/-- `index.strftime('%m%d')` on one timestamp. -/
def strftimeMMDD (dt : Date) : String := pad2 dt.month ++ pad2 dt.day

/-- `index.strftime('%m')` on one timestamp. -/
def strftimeMM (dt : Date) : String := pad2 dt.month

/-- Column-wise arithmetic mean of a group of rows (all rows of a frame
have one cell per column). -/
def meanColumns (grp : List (List Rat)) : List Rat :=
  match grp with
  | [] => []
  | r0 :: _ =>
    (List.range r0.length).map (fun j =>
      let vals := grp.map (fun row => row.getD j 0)
      vals.sum / (vals.length : Rat))

/-- Lexicographic comparison of character lists by code point. -/
def charListLe : List Char → List Char → Bool
  | [], _ => true
  | _ :: _, [] => false
  | a :: as, b :: bs =>
    if a = b then charListLe as bs else Nat.blt a.toNat b.toNat

/-- Lexicographic string comparison, the order pandas sorts group keys
with. -/
def strLe (a b : String) : Bool := charListLe a.data b.data

/-- Sorted insertion of a string into a list. -/
def insertSorted (a : String) : List String → List String
  | [] => [a]
  | b :: bs => if strLe a b then a :: b :: bs else b :: insertSorted a bs

/-- Ascending lexicographic sort of a list of strings. -/
def sortStrings (l : List String) : List String :=
  l.foldr insertSorted []

/-- `df.groupby(df.index.strftime(fmt)).mean()`: rows grouped by the
rendered key, one output row per distinct key, keys sorted ascending as
pandas `groupby` does, cells replaced by per-column group means. -/
def groupbyMean (key : Date → String) (df : Frame Date) : Frame String :=
  let ks := sortStrings ((df.rows.map (fun r => key r.1)).dedup)
  { indexName := df.indexName
    cols := df.cols
    rows := ks.map (fun k =>
      (k, meanColumns ((df.rows.filter (fun r => key r.1 == k)).map (fun r => r.2)))) }

/-- `daily_averages`: like `retrospective` but the parameters come from
`event["requestContext"]` (a missing `requestContext` raises `KeyError`,
which the handler's `except ValueError` does not catch), the series is
fetched with no date filter, and the frame is grouped by `'%m%d'`. -/
def daily_averages (path : List String) (event : Event) (store : RetroStore) :
    Except Exc Response :=
  if path.length ≤ 2 then
    .ok { codeKey := "statesCode", code := 422, body := "Bad request: No reachID specified" }
  else
    match event.requestContext with
    | none => .error (Exc.keyError "\x27requestContext\x27")
    | some rc =>
      let params := getParamsRC rc
      let pid := path.getD 2 ""
      match pyInt pid with
      | none =>
        .ok { codeKey := "statesCode", code := 400
              body := "Bad request: couldn\x27t make " ++ pid ++ " into an integer" }
      | some reach_id =>
        match _retrospective store reach_id [] with
        | .error e => .error e
        | .ok df =>
          match formatOutput (groupbyMean strftimeMMDD df) id params with
          | .error e => .error e
          | .ok output =>
            .ok { codeKey := "statusCode", code := 200, body := jsonEncodeString output }

/-- `monthly_averages`: identical to `daily_averages` with grouping key
`'%m'`. -/
def monthly_averages (path : List String) (event : Event) (store : RetroStore) :
    Except Exc Response :=
  if path.length ≤ 2 then
    .ok { codeKey := "statesCode", code := 422, body := "Bad request: No reachID specified" }
  else
    match event.requestContext with
    | none => .error (Exc.keyError "\x27requestContext\x27")
    | some rc =>
      let params := getParamsRC rc
      let pid := path.getD 2 ""
      match pyInt pid with
      | none =>
        .ok { codeKey := "statesCode", code := 400
              body := "Bad request: couldn\x27t make " ++ pid ++ " into an integer" }
      | some reach_id =>
        match _retrospective store reach_id [] with
        | .error e => .error e
        | .ok df =>
          match formatOutput (groupbyMean strftimeMM df) id params with
          | .error e => .error e
          | .ok output =>
            .ok { codeKey := "statusCode", code := 200, body := jsonEncodeString output }

/-- `returnperiods`: parameters from `event["requestContext"]`, data from
the return-periods store (`KeyError` when the reach is absent), then the
same formatting tail. -/
def returnperiods (path : List String) (event : Event) (rpStore : RPStore) :
    Except Exc Response :=
  if path.length ≤ 2 then
    .ok { codeKey := "statesCode", code := 422, body := "Bad request: No reachID specified" }
  else
    match event.requestContext with
    | none => .error (Exc.keyError "\x27requestContext\x27")
    | some rc =>
      let params := getParamsRC rc
      let pid := path.getD 2 ""
      match pyInt pid with
      | none =>
        .ok { codeKey := "statesCode", code := 400
              body := "Bad request: couldn\x27t make " ++ pid ++ " into an integer" }
      | some reach_id =>
        match lookupStore rpStore reach_id with
        | none => .error (Exc.keyError (toString reach_id))
        | some df =>
          match formatOutput df id params with
          | .error e => .error e
          | .ok output =>
            .ok { codeKey := "statusCode", code := 200, body := jsonEncodeString output }

/-- `check_if_valid_request`: read `event["requestContext"]["http"]["path"]`
(any missing member is caught by the bare `except` and yields the generic
400 dict), split on `/` dropping the leading empty segment, reject a
non-empty path whose first segment is not `v2` with the 422 `No V2` dict,
and otherwise return the segment list. -/
def check_if_valid_request (event : Event) : Sum (List String) Response :=
  match event.requestContext with
  | none => .inr { codeKey := "statesCode", code := 400, body := "Bad request" }
  | some rc =>
    match rc.http with
    | none => .inr { codeKey := "statesCode", code := 400, body := "Bad request" }
    | some http =>
      let path := (pySplit http.path '/').drop 1
      match path with
      | [] => .inl []
      | p0 :: _ =>
        if p0 = "v2" then .inl path
        else .inr { codeKey := "statesCode", code := 422, body := "No V2 in " ++ pyListRepr path }

/-- `lambda_handler`: validate the request, dispatch on the second path
segment, catch every exception into the generic 400 envelope, and fall
through to a 200 echoing `json.dumps(event)` when no branch returned.
When `check_if_valid_request` returns its error dict, the dispatcher's
`path[1]` indexes that dict and raises `KeyError(1)` (whose `str` is
`1`); the `if not len(path) > 1: pass` line of the source is a no-op, so
`path[1]` on a short list raises `IndexError`. -/
def lambda_handler (event : Event) (store : RetroStore) (rpStore : RPStore) : Response :=
  let dispatched : Except Exc (Option Response) :=
    match check_if_valid_request event with
    | .inr _errDict => .error (Exc.keyError "1")
    | .inl path =>
      match path with
      | _ :: seg :: _ =>
        if seg = "retrospective" then (retrospective path event store).map some
        else if seg = "daily_averages" then (daily_averages path event store).map some
        else if seg = "monthly_averages" then (monthly_averages path event store).map some
        else if seg = "returnperiods" then (returnperiods path event rpStore).map some
        else .ok none
      | _ => .error Exc.indexError
  match dispatched with
  | .error e => { codeKey := "statesCode", code := 400, body := "Bad request: " ++ e.str }
  | .ok (some r) => r
  | .ok none => { codeKey := "statusCode", code := 200, body := jsonDumps event }

/-- The path segments `check_if_valid_request` would extract from an
event whose transport members are present. -/
def eventPath (event : Event) : Option (List String) :=
  match event.requestContext with
  | some rc =>
    match rc.http with
    | some http => some ((pySplit http.path '/').drop 1)
    | none => none
  | none => none

/-- The four endpoint names the dispatcher recognizes. -/
def recognizedEndpoints : List String :=
  ["retrospective", "daily_averages", "monthly_averages", "returnperiods"]

/-- The parameter mapping an endpoint actually reads: `retrospective`
reads the top-level `queryStringParameters`, the other three read
`requestContext.queryStringParameters`. -/
def effectiveParams (seg : String) (event : Event) : Params :=
  if seg = "retrospective" then getParamsTop event
  else
    match event.requestContext with
    | some rc => getParamsRC rc
    | none => []

/-- Maximum number of days a calendar month can have (February includes
the leap day), used to state which `(month, day)` pairs a real pandas
timestamp can carry. -/
def monthLen (m : Nat) : Nat :=
  match m with
  | 1 => 31 | 2 => 29 | 3 => 31 | 4 => 30 | 5 => 31 | 6 => 30
  | 7 => 31 | 8 => 31 | 9 => 30 | 10 => 31 | 11 => 30 | 12 => 31
  | _ => 0

/-- A `Date` that a real timestamp in the store's time index can be:
month in 1..12 and day within the month's maximal length. -/
def validDate (dt : Date) : Prop :=
  1 ≤ dt.month ∧ dt.month ≤ 12 ∧ 1 ≤ dt.day ∧ dt.day ≤ monthLen dt.month

instance : DecidablePred validDate := fun dt => by
  unfold validDate
  infer_instance

/-- All `(month, day)` pairs a valid date can carry; there are 366 of
them (365 plus February 29). -/
def validMDPairs : Finset (Nat × Nat) :=
  (Finset.Icc 1 12 ×ˢ Finset.Icc 1 31).filter (fun p => 1 ≤ p.2 ∧ p.2 ≤ monthLen p.1)

/-- Event with an unrecognized endpoint segment, used to exhibit the
dispatcher's fall-through. -/
def evUnknownEndpoint : Event :=
  { requestContext := some { http := some { path := "/v2/forecast/123" }, queryStringParameters := none }
    queryStringParameters := none }

/-- The spec's example store content for reach 12345678 with three
daily timestamps. -/
def storeExample : RetroStore :=
  [(12345678, [(⟨2020, 1, 1⟩, 5), (⟨2020, 1, 2⟩, 6), (⟨2020, 1, 3⟩, 7)])]

/-- The spec's example request `format=json` with a two-day window. -/
def evFormatJson : Event :=
  { requestContext := some { http := some { path := "/v2/retrospective/12345678" }, queryStringParameters := none }
    queryStringParameters :=
      some [("format", "json"), ("start_date", "2020-01-01"), ("end_date", "2020-01-02")] }

/-- A single-reach, single-timestamp store. -/
def storeSingle : RetroStore := [(1, [(⟨2020, 1, 1⟩, 5)])]

/-- The spec's example request with no query parameters. -/
def evNoParams : Event :=
  { requestContext := some { http := some { path := "/v2/retrospective/1" }, queryStringParameters := none }
    queryStringParameters := none }

/-- Request whose first path segment is `v1` rather than `v2`. -/
def evV1Version : Event :=
  { requestContext := some { http := some { path := "/v1/retrospective/123" }, queryStringParameters := none }
    queryStringParameters := none }

/-- Two-segment path with an unrecognized endpoint name. -/
def evTwoSegUnknown : Event :=
  { requestContext := some { http := some { path := "/v2/foo" }, queryStringParameters := none }
    queryStringParameters := none }

/-- Two-segment path with a recognized endpoint name and no reach id. -/
def evTwoSegRetro : Event :=
  { requestContext := some { http := some { path := "/v2/retrospective" }, queryStringParameters := none }
    queryStringParameters := none }

/-- The bare `/v2` path. -/
def evOnlyV2 : Event :=
  { requestContext := some { http := some { path := "/v2" }, queryStringParameters := none }
    queryStringParameters := none }

/-- Request carrying the unsupported `format=xml`. -/
def evBadFormat : Event :=
  { requestContext := some { http := some { path := "/v2/retrospective/1" }, queryStringParameters := none }
    queryStringParameters := some [("format", "xml")] }

/-- Request carrying the `format` key with the empty value (`?format=`). -/
def evEmptyFormat : Event :=
  { requestContext := some { http := some { path := "/v2/retrospective/1" }, queryStringParameters := none }
    queryStringParameters := some [("format", "")] }

/-- Events that agree on the top-level parameters but differ in the
request-context parameters. -/
def evTopAgreeA : Event :=
  { requestContext := some { http := some { path := "/v2/retrospective/1" }
                             queryStringParameters := some [("format", "json")] }
    queryStringParameters := some [("format", "csv")] }

/-- Companion of `evTopAgreeA` with the request-context parameters
removed. -/
def evTopAgreeB : Event :=
  { requestContext := some { http := some { path := "/v2/retrospective/1" }
                             queryStringParameters := none }
    queryStringParameters := some [("format", "csv")] }

/-- Events that agree on the request context but differ in the top-level
parameters. -/
def evRcAgreeA : Event :=
  { requestContext := some { http := some { path := "/v2/daily_averages/1" }
                             queryStringParameters := some [("format", "csv")] }
    queryStringParameters := some [("start_date", "1999-01-01")] }

/-- Companion of `evRcAgreeA` with the top-level parameters removed. -/
def evRcAgreeB : Event :=
  { requestContext := some { http := some { path := "/v2/daily_averages/1" }
                             queryStringParameters := some [("format", "csv")] }
    queryStringParameters := none }

/-- A three-row time-indexed frame used to exercise the date filter. -/
def dfFilterExample : Frame Date :=
  { indexName := "time"
    cols := ["1"]
    rows := [(⟨2020, 1, 1⟩, [5]), (⟨2020, 1, 2⟩, [6]), (⟨2020, 1, 3⟩, [7])] }

/-- `dfFilterExample` restricted to 2020-01-02. -/
def dfFilterExampleOut : Frame Date :=
  { indexName := "time"
    cols := ["1"]
    rows := [(⟨2020, 1, 2⟩, [6])] }

/-- Parameter mapping whose start and end dates are the same day. -/
def paramsSameDay : Params := [("start_date", "2020-01-02"), ("end_date", "2020-01-02")]

/-- A frame whose timestamps are valid calendar dates (including a leap
day), used to exercise the climatology groupings. -/
def dfClimatology : Frame Date :=
  { indexName := "time"
    cols := ["1"]
    rows := [(⟨2020, 1, 1⟩, [5]), (⟨2021, 1, 1⟩, [7]), (⟨2020, 2, 29⟩, [6])] }

/-! ## Helper lemmas -/

/-- A supplied `format` value that is neither `csv` nor `json` makes the
shared formatting block raise the bare `ValueError`. -/
theorem formatOutput_bad {ι : Type} (df : Frame ι) (render : ι → String) (params : Params)
    (v : String) (hv : params.lookup "format" = some v) (hne : v ≠ "")
    (hcsv : v ≠ "csv") (hjson : v ≠ "json") :
    formatOutput df render params = .error (Exc.valueError "") := by
  have h1 : pgetTruthy params "format" = some v := by
    unfold pgetTruthy
    rw [hv]
    simp only [if_neg hne]
  unfold formatOutput
  rw [h1]
  simp only [if_neg hcsv, if_neg hjson]

/-- Any dict `retrospective` returns (rather than raises) under a bad
`format` parameter is an error dict carrying the `statesCode` key. -/
theorem retrospective_ok_statesCode_of_bad_format (path : List String) (event : Event)
    (store : RetroStore) (v : String)
    (hv : (getParamsTop event).lookup "format" = some v) (hne : v ≠ "")
    (hcsv : v ≠ "csv") (hjson : v ≠ "json") (r : Response)
    (h : retrospective path event store = .ok r) :
    r.codeKey = "statesCode" := by
  simp only [retrospective] at h
  split at h
  · cases h; rfl
  · split at h
    · cases h; rfl
    · rename_i reach_id _
      split at h
      · cases h
      · rename_i df _
        rw [formatOutput_bad df dateToString (getParamsTop event) v hv hne hcsv hjson] at h
        cases h

/-- Any dict `daily_averages` returns under a bad `format` parameter is
an error dict carrying the `statesCode` key. -/
theorem daily_ok_statesCode_of_bad_format (path : List String) (event : Event)
    (store : RetroStore) (rc : RequestContext) (hrc : event.requestContext = some rc)
    (v : String) (hv : (getParamsRC rc).lookup "format" = some v) (hne : v ≠ "")
    (hcsv : v ≠ "csv") (hjson : v ≠ "json") (r : Response)
    (h : daily_averages path event store = .ok r) :
    r.codeKey = "statesCode" := by
  simp only [daily_averages, hrc] at h
  split at h
  · cases h; rfl
  · split at h
    · cases h; rfl
    · rename_i reach_id _
      split at h
      · cases h
      · rename_i df _
        rw [formatOutput_bad (groupbyMean strftimeMMDD df) id (getParamsRC rc) v hv hne hcsv hjson] at h
        cases h

/-- Any dict `monthly_averages` returns under a bad `format` parameter
is an error dict carrying the `statesCode` key. -/
theorem monthly_ok_statesCode_of_bad_format (path : List String) (event : Event)
    (store : RetroStore) (rc : RequestContext) (hrc : event.requestContext = some rc)
    (v : String) (hv : (getParamsRC rc).lookup "format" = some v) (hne : v ≠ "")
    (hcsv : v ≠ "csv") (hjson : v ≠ "json") (r : Response)
    (h : monthly_averages path event store = .ok r) :
    r.codeKey = "statesCode" := by
  simp only [monthly_averages, hrc] at h
  split at h
  · cases h; rfl
  · split at h
    · cases h; rfl
    · rename_i reach_id _
      split at h
      · cases h
      · rename_i df _
        rw [formatOutput_bad (groupbyMean strftimeMM df) id (getParamsRC rc) v hv hne hcsv hjson] at h
        cases h

/-- Any dict `returnperiods` returns under a bad `format` parameter is
an error dict carrying the `statesCode` key. -/
theorem returnperiods_ok_statesCode_of_bad_format (path : List String) (event : Event)
    (rpStore : RPStore) (rc : RequestContext) (hrc : event.requestContext = some rc)
    (v : String) (hv : (getParamsRC rc).lookup "format" = some v) (hne : v ≠ "")
    (hcsv : v ≠ "csv") (hjson : v ≠ "json") (r : Response)
    (h : returnperiods path event rpStore = .ok r) :
    r.codeKey = "statesCode" := by
  simp only [returnperiods, hrc] at h
  split at h
  · cases h; rfl
  · split at h
    · cases h; rfl
    · rename_i reach_id _
      split at h
      · cases h
      · rename_i df _
        rw [formatOutput_bad df id (getParamsRC rc) v hv hne hcsv hjson] at h
        cases h

/-! ## Claim theorems -/

/-- Counterexample for C5 as stated: `?format=` supplies a `format`
value (the empty string) that is neither `csv` nor `json`, yet
`params.get('format', False)` on the empty string is falsy, so the code
silently falls back to CSV and returns a 200 success — not an error
envelope. -/
theorem c5_empty_format_counterexample :
    (evEmptyFormat.queryStringParameters.getD []).lookup "format" = some "" ∧
    ("" : String) ≠ "csv" ∧ ("" : String) ≠ "json" ∧
    lambda_handler evEmptyFormat storeSingle [] =
      { codeKey := "statusCode", code := 200, body := jsonEncodeString "1\n5\n" } := by decide

/-- C5 (amended): for every request to a recognized endpoint whose
`format` query parameter (read from the location that endpoint consults)
is supplied with a non-empty value that is neither `csv` nor `json`, the
handler's response is an error envelope (its key is the error-path
`statesCode`, never the success `statusCode 200`), with no silent
fallback to CSV; a `format` supplied with the empty value is falsy under
the code's truthiness test and instead falls back to CSV with a 200. -/
theorem c5_bad_format_error_envelope (event : Event) (store : RetroStore) (rpStore : RPStore)
    (path : List String) (seg v : String)
    (hpath : eventPath event = some path)
    (hseg : path.get? 1 = some seg)
    (hrec : seg ∈ recognizedEndpoints)
    (hfmt : (effectiveParams seg event).lookup "format" = some v)
    (hne : v ≠ "") (hcsv : v ≠ "csv") (hjson : v ≠ "json") :
    (lambda_handler event store rpStore).codeKey = "statesCode" := by
  obtain ⟨orc, oq⟩ := event
  cases orc with
  | none => simp [eventPath] at hpath
  | some rc =>
    obtain ⟨ohttp, rcq⟩ := rc
    cases ohttp with
    | none => simp [eventPath] at hpath
    | some http =>
      simp only [eventPath, Option.some.injEq] at hpath
      cases path with
      | nil => simp at hseg
      | cons p0 t =>
        cases t with
        | nil => simp at hseg
        | cons s1 rest =>
          have hs : s1 = seg := by simpa using hseg
          subst hs
          by_cases hv2 : p0 = "v2"
          case neg =>
            have hcheck : check_if_valid_request ⟨some ⟨some http, rcq⟩, oq⟩ =
                .inr ⟨"statesCode", 422, "No V2 in " ++ pyListRepr (p0 :: s1 :: rest)⟩ := by
              simp [check_if_valid_request, hpath, hv2]
            simp [lambda_handler, hcheck, Exc.str]
          case pos =>
            subst hv2
            have hcheck : check_if_valid_request ⟨some ⟨some http, rcq⟩, oq⟩ =
                .inl ("v2" :: s1 :: rest) := by
              simp [check_if_valid_request, hpath]
            simp only [recognizedEndpoints, List.mem_cons, List.not_mem_nil, or_false] at hrec
            rcases hrec with rfl | rfl | rfl | rfl
            · rcases hr : retrospective ("v2" :: "retrospective" :: rest) ⟨some ⟨some http, rcq⟩, oq⟩ store with e | r
              · simp [lambda_handler, hcheck, hr, Except.map, Exc.str]
              · have hck := retrospective_ok_statesCode_of_bad_format _ _ _ v
                  (by simpa only [effectiveParams, if_pos rfl] using hfmt) hne hcsv hjson r hr
                simpa [lambda_handler, hcheck, hr] using hck
            · rcases hr : daily_averages ("v2" :: "daily_averages" :: rest) ⟨some ⟨some http, rcq⟩, oq⟩ store with e | r
              · simp [lambda_handler, hcheck, hr, Except.map, Exc.str]
              · have hck := daily_ok_statesCode_of_bad_format _ _ _ ⟨some http, rcq⟩ rfl v
                  (by simpa [effectiveParams] using hfmt) hne hcsv hjson r hr
                simpa [lambda_handler, hcheck, hr] using hck
            · rcases hr : monthly_averages ("v2" :: "monthly_averages" :: rest) ⟨some ⟨some http, rcq⟩, oq⟩ store with e | r
              · simp [lambda_handler, hcheck, hr, Except.map, Exc.str]
              · have hck := monthly_ok_statesCode_of_bad_format _ _ _ ⟨some http, rcq⟩ rfl v
                  (by simpa [effectiveParams] using hfmt) hne hcsv hjson r hr
                simpa [lambda_handler, hcheck, hr] using hck
            · rcases hr : returnperiods ("v2" :: "returnperiods" :: rest) ⟨some ⟨some http, rcq⟩, oq⟩ rpStore with e | r
              · simp [lambda_handler, hcheck, hr, Except.map, Exc.str]
              · have hck := returnperiods_ok_statesCode_of_bad_format _ _ _ ⟨some http, rcq⟩ rfl v
                  (by simpa [effectiveParams] using hfmt) hne hcsv hjson r hr
                simpa [lambda_handler, hcheck, hr] using hck

/-- Witness for C5: the concrete request `/v2/retrospective/1?format=xml`
yields an error envelope. -/
theorem c5_bad_format_error_envelope_witness :
    (lambda_handler evBadFormat [] []).codeKey = "statesCode" :=
  c5_bad_format_error_envelope evBadFormat [] [] ["v2", "retrospective", "1"] "retrospective"
    "xml" (by decide) (by decide) (by decide) (by decide) (by decide) (by decide) (by decide)

/-- C10: `retrospective` reads query parameters only from the top-level
`queryStringParameters`, while `daily_averages`, `monthly_averages` and
`returnperiods` read them only from `requestContext.queryStringParameters`:
two events that agree at the location an endpoint reads (in particular,
two events differing only at the location it does not read) get identical
responses from that endpoint. -/
theorem c10_param_location_noninterference :
    (∀ (path : List String) (store : RetroStore) (e1 e2 : Event),
        e1.queryStringParameters = e2.queryStringParameters →
        retrospective path e1 store = retrospective path e2 store) ∧
    (∀ (path : List String) (store : RetroStore) (e1 e2 : Event),
        e1.requestContext = e2.requestContext →
        daily_averages path e1 store = daily_averages path e2 store) ∧
    (∀ (path : List String) (store : RetroStore) (e1 e2 : Event),
        e1.requestContext = e2.requestContext →
        monthly_averages path e1 store = monthly_averages path e2 store) ∧
    (∀ (path : List String) (rpStore : RPStore) (e1 e2 : Event),
        e1.requestContext = e2.requestContext →
        returnperiods path e1 rpStore = returnperiods path e2 rpStore) := by
  refine ⟨?_, ?_, ?_, ?_⟩ <;> intro path st e1 e2 h
  · simp only [retrospective, getParamsTop, h]
  · simp only [daily_averages, h]
  · simp only [monthly_averages, h]
  · simp only [returnperiods, h]

/-- Witness for C10: concrete event pairs differing only at the unread
parameter location yield identical handler results. -/
theorem c10_param_location_noninterference_witness :
    retrospective ["v2", "retrospective", "1"] evTopAgreeA [] =
      retrospective ["v2", "retrospective", "1"] evTopAgreeB [] ∧
    daily_averages ["v2", "daily_averages", "1"] evRcAgreeA [] =
      daily_averages ["v2", "daily_averages", "1"] evRcAgreeB [] ∧
    monthly_averages ["v2", "monthly_averages", "1"] evRcAgreeA [] =
      monthly_averages ["v2", "monthly_averages", "1"] evRcAgreeB [] ∧
    returnperiods ["v2", "returnperiods", "1"] evRcAgreeA [] =
      returnperiods ["v2", "returnperiods", "1"] evRcAgreeB [] :=
  ⟨c10_param_location_noninterference.1 _ _ _ _ (by decide),
   c10_param_location_noninterference.2.1 _ _ _ _ (by decide),
   c10_param_location_noninterference.2.2.1 _ _ _ _ (by decide),
   c10_param_location_noninterference.2.2.2 _ _ _ _ (by decide)⟩

/-- C8: every successful (code 200) dict any of the four handlers
returns uses the `statusCode` key and carries as `body` the
`json.dumps` string-encoding of the formatted table text produced by the
shared formatting block (double-encoding, also for CSV). -/
theorem c8_success_envelope_double_encoded :
    (∀ (path : List String) (event : Event) (store : RetroStore) (r : Response),
        retrospective path event store = .ok r → r.code = 200 →
        r.codeKey = "statusCode" ∧
          ∃ (df : Frame Date) (out : String),
            formatOutput df dateToString (getParamsTop event) = .ok out ∧
            r.body = jsonEncodeString out) ∧
    (∀ (path : List String) (event : Event) (store : RetroStore) (r : Response),
        daily_averages path event store = .ok r → r.code = 200 →
        r.codeKey = "statusCode" ∧
          ∃ (rc : RequestContext) (df : Frame String) (out : String),
            event.requestContext = some rc ∧
            formatOutput df id (getParamsRC rc) = .ok out ∧
            r.body = jsonEncodeString out) ∧
    (∀ (path : List String) (event : Event) (store : RetroStore) (r : Response),
        monthly_averages path event store = .ok r → r.code = 200 →
        r.codeKey = "statusCode" ∧
          ∃ (rc : RequestContext) (df : Frame String) (out : String),
            event.requestContext = some rc ∧
            formatOutput df id (getParamsRC rc) = .ok out ∧
            r.body = jsonEncodeString out) ∧
    (∀ (path : List String) (event : Event) (rpStore : RPStore) (r : Response),
        returnperiods path event rpStore = .ok r → r.code = 200 →
        r.codeKey = "statusCode" ∧
          ∃ (rc : RequestContext) (df : Frame String) (out : String),
            event.requestContext = some rc ∧
            formatOutput df id (getParamsRC rc) = .ok out ∧
            r.body = jsonEncodeString out) := by
  refine ⟨?_, ?_, ?_, ?_⟩
  · intro path event store r h h200
    simp only [retrospective] at h
    split at h
    · cases h; simp at h200
    · split at h
      · cases h; simp at h200
      · rename_i reach_id _
        split at h
        · cases h
        · rename_i df _
          split at h
          · cases h
          · rename_i out hout
            cases h
            exact ⟨rfl, df, out, hout, rfl⟩
  · intro path event store r h h200
    obtain ⟨orc, oq⟩ := event
    cases orc with
    | none =>
      simp only [daily_averages] at h
      split at h
      · cases h; simp at h200
      · cases h
    | some rc =>
      simp only [daily_averages] at h
      split at h
      · cases h; simp at h200
      · split at h
        · cases h; simp at h200
        · rename_i reach_id _
          split at h
          · cases h
          · rename_i df _
            split at h
            · cases h
            · rename_i out hout
              cases h
              exact ⟨rfl, rc, groupbyMean strftimeMMDD df, out, rfl, hout, rfl⟩
  · intro path event store r h h200
    obtain ⟨orc, oq⟩ := event
    cases orc with
    | none =>
      simp only [monthly_averages] at h
      split at h
      · cases h; simp at h200
      · cases h
    | some rc =>
      simp only [monthly_averages] at h
      split at h
      · cases h; simp at h200
      · split at h
        · cases h; simp at h200
        · rename_i reach_id _
          split at h
          · cases h
          · rename_i df _
            split at h
            · cases h
            · rename_i out hout
              cases h
              exact ⟨rfl, rc, groupbyMean strftimeMM df, out, rfl, hout, rfl⟩
  · intro path event rpStore r h h200
    obtain ⟨orc, oq⟩ := event
    cases orc with
    | none =>
      simp only [returnperiods] at h
      split at h
      · cases h; simp at h200
      · cases h
    | some rc =>
      simp only [returnperiods] at h
      split at h
      · cases h; simp at h200
      · split at h
        · cases h; simp at h200
        · rename_i reach_id _
          split at h
          · cases h
          · rename_i df _
            split at h
            · cases h
            · rename_i out hout
              cases h
              exact ⟨rfl, rc, df, out, rfl, hout, rfl⟩

/-- Witness for C8: the concrete successful response for
`/v2/retrospective/1` has the `statusCode` key and a body that is the
JSON string-encoding of its formatted CSV text. -/
theorem c8_success_envelope_double_encoded_witness :
    ({ codeKey := "statusCode", code := 200, body := jsonEncodeString "1\n5\n" } : Response).codeKey
        = "statusCode" ∧
      ∃ (df : Frame Date) (out : String),
        formatOutput df dateToString (getParamsTop evNoParams) = .ok out ∧
        ({ codeKey := "statusCode", code := 200, body := jsonEncodeString "1\n5\n" } : Response).body
          = jsonEncodeString out :=
  c8_success_envelope_double_encoded.1 ["v2", "retrospective", "1"] evNoParams storeSingle
    { codeKey := "statusCode", code := 200, body := jsonEncodeString "1\n5\n" }
    (by decide) (by decide)

/-- The chronological order on timestamps is reflexive. -/
theorem date_le_refl (d : Date) : Date.le d d = true := by
  simp [Date.le]

/-- The chronological order on timestamps is antisymmetric. -/
theorem date_le_antisymm {a b : Date} (h1 : Date.le a b = true) (h2 : Date.le b a = true) :
    a = b := by
  obtain ⟨y1, m1, d1⟩ := a
  obtain ⟨y2, m2, d2⟩ := b
  simp only [Date.le, Bool.or_eq_true, Bool.and_eq_true, Nat.blt_eq, Nat.ble_eq,
    beq_iff_eq] at h1 h2
  simp only [Date.mk.injEq]
  omega

/-- Membership characterization of the two optional date filters of
`_retrospective`: a row survives exactly when it is an original row whose
timestamp satisfies the parsed `start_date` lower bound (when supplied)
and the parsed `end_date` upper bound (when supplied), both inclusive. -/
theorem filterDates_mem (df df' : Frame Date) (params : Params)
    (h : filterDates params df = .ok df') (r : Date × List Rat) :
    r ∈ df'.rows ↔ r ∈ df.rows ∧
      (∀ s sd, pgetTruthy params "start_date" = some s → parseDate s = some sd →
        Date.le sd r.1 = true) ∧
      (∀ s ed, pgetTruthy params "end_date" = some s → parseDate s = some ed →
        Date.le r.1 ed = true) := by
  unfold filterDates at h
  rcases hE : pgetTruthy params "end_date" with _ | es <;> simp only [hE] at h
  · rcases hS : pgetTruthy params "start_date" with _ | ss <;> simp only [hS] at h
    · cases h
      simp
    · rcases hps : parseDate ss with _ | sd <;> simp only [hps] at h
      · cases h
      · cases h
        simp only [List.mem_filter]
        constructor
        · rintro ⟨hm, hp⟩
          refine ⟨hm, ?_, ?_⟩
          · intro s sd' h1 h2
            cases h1
            rw [hps] at h2
            cases h2
            exact hp
          · intro s ed h1 h2
            cases h1
        · rintro ⟨hm, hlo, _⟩
          exact ⟨hm, hlo ss sd rfl hps⟩
  · rcases hpe : parseDate es with _ | ed <;> simp only [hpe] at h
    · cases h
    · rcases hS : pgetTruthy params "start_date" with _ | ss <;> simp only [hS] at h
      · cases h
        simp only [List.mem_filter]
        constructor
        · rintro ⟨hm, hp⟩
          refine ⟨hm, ?_, ?_⟩
          · intro s sd h1 h2
            cases h1
          · intro s ed' h1 h2
            cases h1
            rw [hpe] at h2
            cases h2
            exact hp
        · rintro ⟨hm, _, hhi⟩
          exact ⟨hm, hhi es ed rfl hpe⟩
      · rcases hps : parseDate ss with _ | sd <;> simp only [hps] at h
        · cases h
        · cases h
          simp only [List.mem_filter]
          constructor
          · rintro ⟨⟨hm, hpE⟩, hpS⟩
            refine ⟨hm, ?_, ?_⟩
            · intro s sd' h1 h2
              cases h1
              rw [hps] at h2
              cases h2
              exact hpS
            · intro s ed' h1 h2
              cases h1
              rw [hpe] at h2
              cases h2
              exact hpE
          · rintro ⟨hm, hlo, hhi⟩
            exact ⟨⟨hm, hhi es ed rfl hpe⟩, hlo ss sd rfl hps⟩

/-- C7: the retrospective date filter keeps exactly the rows whose
timestamp `t` satisfies `start_date <= t` and `t <= end_date`
(inclusive; an absent bound imposes no constraint), and when
`start_date` equals `end_date` exactly the rows at that single date
remain. -/
theorem c7_date_filter_inclusive (df df' : Frame Date) (params : Params)
    (h : filterDates params df = .ok df') :
    (∀ r, r ∈ df'.rows ↔ r ∈ df.rows ∧
        (∀ s sd, pgetTruthy params "start_date" = some s → parseDate s = some sd →
          Date.le sd r.1 = true) ∧
        (∀ s ed, pgetTruthy params "end_date" = some s → parseDate s = some ed →
          Date.le r.1 ed = true)) ∧
    (∀ s d, pgetTruthy params "start_date" = some s →
        pgetTruthy params "end_date" = some s → parseDate s = some d →
        ∀ r, r ∈ df'.rows ↔ r ∈ df.rows ∧ r.1 = d) := by
  refine ⟨filterDates_mem df df' params h, ?_⟩
  intro s d hS hE hp r
  rw [filterDates_mem df df' params h r]
  constructor
  · rintro ⟨hm, hlo, hhi⟩
    exact ⟨hm, (date_le_antisymm (hlo s d hS hp) (hhi s d hE hp)).symm⟩
  · rintro ⟨hm, hrd⟩
    refine ⟨hm, ?_, ?_⟩
    · intro s' sd' h1 h2
      rw [hS] at h1
      cases h1
      rw [hp] at h2
      cases h2
      rw [hrd]
      exact date_le_refl d
    · intro s' ed' h1 h2
      rw [hE] at h1
      cases h1
      rw [hp] at h2
      cases h2
      rw [hrd]
      exact date_le_refl d

/-- Witness for C7: the filter with `start_date = end_date = 2020-01-02`
keeps exactly the single row at that date. -/
theorem c7_date_filter_inclusive_witness :
    (∀ r, r ∈ dfFilterExampleOut.rows ↔ r ∈ dfFilterExample.rows ∧
        (∀ s sd, pgetTruthy paramsSameDay "start_date" = some s → parseDate s = some sd →
          Date.le sd r.1 = true) ∧
        (∀ s ed, pgetTruthy paramsSameDay "end_date" = some s → parseDate s = some ed →
          Date.le r.1 ed = true)) ∧
    (∀ s d, pgetTruthy paramsSameDay "start_date" = some s →
        pgetTruthy paramsSameDay "end_date" = some s → parseDate s = some d →
        ∀ r, r ∈ dfFilterExampleOut.rows ↔ r ∈ dfFilterExample.rows ∧ r.1 = d) :=
  c7_date_filter_inclusive dfFilterExample dfFilterExampleOut paramsSameDay (by decide)

/-- Sorted insertion grows a list by one element. -/
theorem insertSorted_length (a : String) (l : List String) :
    (insertSorted a l).length = l.length + 1 := by
  induction l with
  | nil => rfl
  | cons b bs ih =>
    unfold insertSorted
    split
    · simp
    · simp [ih]

/-- Sorting preserves the number of keys. -/
theorem sortStrings_length (l : List String) : (sortStrings l).length = l.length := by
  unfold sortStrings
  induction l with
  | nil => rfl
  | cons a as ih => simp [List.foldr, insertSorted_length, ih]

/-- The grouped frame has one row per distinct rendered key. -/
theorem groupbyMean_length (key : Date → String) (df : Frame Date) :
    (groupbyMean key df).rows.length = ((df.rows.map (fun r => key r.1)).dedup).length := by
  simp [groupbyMean, sortStrings_length]

/-- A list drawn from a finite set has at most that many distinct
elements. -/
theorem dedup_card_le (l : List String) (T : Finset String) (hsub : ∀ x ∈ l, x ∈ T) :
    l.dedup.length ≤ T.card := by
  rw [← List.card_toFinset]
  exact Finset.card_le_card (fun x hx => hsub x (List.mem_toFinset.mp hx))

/-- No month has more than 31 days. -/
theorem monthLen_le_31 (m : Nat) : monthLen m ≤ 31 := by
  unfold monthLen
  split <;> omega

set_option maxRecDepth 100000 in
/-- There are exactly 366 valid month-day pairs. -/
theorem validMDPairs_card : validMDPairs.card = 366 := by decide

/-- C9: over any series whose timestamps are real calendar dates, the
`daily_averages` grouping by `'%m%d'` has at most 366 distinct group
keys and the `monthly_averages` grouping by `'%m'` has at most 12. -/
theorem c9_group_key_bounds (df : Frame Date)
    (hvalid : ∀ r ∈ df.rows, validDate r.1) :
    (groupbyMean strftimeMMDD df).rows.length ≤ 366 ∧
    (groupbyMean strftimeMM df).rows.length ≤ 12 := by
  constructor
  · rw [groupbyMean_length]
    have hsub : ∀ x ∈ df.rows.map (fun r => strftimeMMDD r.1),
        x ∈ validMDPairs.image (fun p => pad2 p.1 ++ pad2 p.2) := by
      intro x hx
      rw [List.mem_map] at hx
      obtain ⟨r, hr, rfl⟩ := hx
      obtain ⟨h1, h2, h3, h4⟩ := hvalid r hr
      rw [Finset.mem_image]
      refine ⟨(r.1.month, r.1.day), ?_, rfl⟩
      rw [validMDPairs, Finset.mem_filter, Finset.mem_product, Finset.mem_Icc, Finset.mem_Icc]
      exact ⟨⟨⟨h1, h2⟩, ⟨h3, le_trans h4 (monthLen_le_31 _)⟩⟩, h3, h4⟩
    calc ((df.rows.map (fun r => strftimeMMDD r.1)).dedup).length
        ≤ (validMDPairs.image (fun p => pad2 p.1 ++ pad2 p.2)).card :=
          dedup_card_le _ _ hsub
      _ ≤ validMDPairs.card := Finset.card_image_le
      _ = 366 := validMDPairs_card
  · rw [groupbyMean_length]
    have hsub : ∀ x ∈ df.rows.map (fun r => strftimeMM r.1),
        x ∈ (Finset.Icc 1 12).image pad2 := by
      intro x hx
      rw [List.mem_map] at hx
      obtain ⟨r, hr, rfl⟩ := hx
      obtain ⟨h1, h2, _, _⟩ := hvalid r hr
      rw [Finset.mem_image]
      exact ⟨r.1.month, Finset.mem_Icc.mpr ⟨h1, h2⟩, rfl⟩
    calc ((df.rows.map (fun r => strftimeMM r.1)).dedup).length
        ≤ ((Finset.Icc 1 12).image pad2).card := dedup_card_le _ _ hsub
      _ ≤ (Finset.Icc 1 12).card := Finset.card_image_le
      _ = 12 := by decide

/-- Witness for C9: a concrete three-row series, including a leap day,
satisfies both bounds. -/
theorem c9_group_key_bounds_witness :
    (groupbyMean strftimeMMDD dfClimatology).rows.length ≤ 366 ∧
    (groupbyMean strftimeMM dfClimatology).rows.length ≤ 12 :=
  c9_group_key_bounds dfClimatology (by decide)

/-- C3 (amended): a no-parameter `/v2/retrospective/<id>` request for a
reach present in the store returns 200 whose body is the JSON-encoded
CSV text of the series; because the source serializes with
`to_csv(index=False)` and the pivot labels the single column by the
rivid, the CSV header row is the reach id itself (the `time` index is
not emitted), followed by one data row per available timestamp. -/
theorem c3_amended_csv_reach_column (event : Event) (store : RetroStore) (rpStore : RPStore)
    (idStr : String) (reach : Int) (series : Series)
    (hpath : eventPath event = some ["v2", "retrospective", idStr])
    (hid : pyInt idStr = some reach)
    (hlookup : lookupStore store reach = some series)
    (hparams : getParamsTop event = []) :
    lambda_handler event store rpStore =
      { codeKey := "statusCode", code := 200,
        body := jsonEncodeString ((retroFrame reach series).to_csv dateToString false) } ∧
    (retroFrame reach series).csvHeader false = toString reach ∧
    ((retroFrame reach series).csvLines dateToString false).length = series.length := by
  obtain ⟨orc, oq⟩ := event
  cases orc with
  | none => simp [eventPath] at hpath
  | some rc =>
    obtain ⟨ohttp, rcq⟩ := rc
    cases ohttp with
    | none => simp [eventPath] at hpath
    | some http =>
      simp only [eventPath, Option.some.injEq] at hpath
      have hcheck : check_if_valid_request ⟨some ⟨some http, rcq⟩, oq⟩ =
          .inl ["v2", "retrospective", idStr] := by
        simp [check_if_valid_request, hpath]
      have hpid : (["v2", "retrospective", idStr] : List String).getD 2 "" = idStr := rfl
      have hretro : retrospective ["v2", "retrospective", idStr] ⟨some ⟨some http, rcq⟩, oq⟩ store =
          .ok { codeKey := "statusCode", code := 200,
                body := jsonEncodeString ((retroFrame reach series).to_csv dateToString false) } := by
        simp only [retrospective]
        rw [if_neg (by simp)]
        rw [hparams, hpid, hid]
        simp only [_retrospective, hlookup]
        have hfilter : filterDates [] (retroFrame reach series) = .ok (retroFrame reach series) := rfl
        rw [hfilter]
        rfl
      refine ⟨?_, ?_, ?_⟩
      · simp [lambda_handler, hcheck, hretro, Except.map]
      · rfl
      · simp [Frame.csvLines, retroFrame]

/-- Counterexample for C3 as stated: at the concrete request
`/v2/retrospective/1` the 200 body's CSV text is `1\n5\n`, whose header
row is the single field `1` — it names neither the `time` index nor a
`Qout` column. -/
theorem c3_header_counterexample :
    lambda_handler evNoParams storeSingle [] =
      { codeKey := "statusCode", code := 200, body := jsonEncodeString "1\n5\n" } ∧
    (pySplit "1\n5\n" '\n').headD "" = "1" ∧
    pySplit "1" ',' = ["1"] ∧
    ¬ "time" ∈ pySplit "1" ',' ∧ ¬ "Qout" ∈ pySplit "1" ',' := by decide

/-- Witness for the amended C3 at the concrete single-row store. -/
theorem c3_amended_csv_reach_column_witness :
    lambda_handler evNoParams storeSingle [] =
      { codeKey := "statusCode", code := 200,
        body := jsonEncodeString ((retroFrame 1 [(⟨2020, 1, 1⟩, 5)]).to_csv dateToString false) } ∧
    (retroFrame 1 [(⟨2020, 1, 1⟩, 5)]).csvHeader false = toString (1 : Int) ∧
    ((retroFrame 1 [(⟨2020, 1, 1⟩, 5)]).csvLines dateToString false).length =
      ([(⟨2020, 1, 1⟩, 5)] : Series).length :=
  c3_amended_csv_reach_column evNoParams storeSingle [] "1" 1 [(⟨2020, 1, 1⟩, 5)]
    (by decide) (by decide) (by decide) (by decide)

/-- C6 (amended): a `v2` path with exactly two segments whose second
segment is a recognized endpoint name yields the 422 missing-reach-id
envelope, and the bare `/v2` path yields the generic 400 envelope from
the dispatcher's uncaught `IndexError` (not a 200); but a short path
with an unrecognized second segment instead hits the 200 echo
fall-through (see C1). -/
theorem c6_amended_missing_reach (event : Event) (store : RetroStore) (rpStore : RPStore) :
    (∀ seg, eventPath event = some ["v2", seg] → seg ∈ recognizedEndpoints →
        lambda_handler event store rpStore =
          { codeKey := "statesCode", code := 422, body := "Bad request: No reachID specified" }) ∧
    (eventPath event = some ["v2"] →
        lambda_handler event store rpStore =
          { codeKey := "statesCode", code := 400, body := "Bad request: list index out of range" }) := by
  constructor
  · intro seg hpath hrec
    obtain ⟨orc, oq⟩ := event
    cases orc with
    | none => simp [eventPath] at hpath
    | some rc =>
      obtain ⟨ohttp, rcq⟩ := rc
      cases ohttp with
      | none => simp [eventPath] at hpath
      | some http =>
        simp only [eventPath, Option.some.injEq] at hpath
        have hcheck : check_if_valid_request ⟨some ⟨some http, rcq⟩, oq⟩ =
            .inl ["v2", seg] := by
          simp [check_if_valid_request, hpath]
        simp only [recognizedEndpoints, List.mem_cons, List.not_mem_nil, or_false] at hrec
        rcases hrec with rfl | rfl | rfl | rfl
        · have hh : retrospective ["v2", "retrospective"] ⟨some ⟨some http, rcq⟩, oq⟩ store =
              .ok { codeKey := "statesCode", code := 422, body := "Bad request: No reachID specified" } := rfl
          simp [lambda_handler, hcheck, hh, Except.map]
        · have hh : daily_averages ["v2", "daily_averages"] ⟨some ⟨some http, rcq⟩, oq⟩ store =
              .ok { codeKey := "statesCode", code := 422, body := "Bad request: No reachID specified" } := rfl
          simp [lambda_handler, hcheck, hh, Except.map]
        · have hh : monthly_averages ["v2", "monthly_averages"] ⟨some ⟨some http, rcq⟩, oq⟩ store =
              .ok { codeKey := "statesCode", code := 422, body := "Bad request: No reachID specified" } := rfl
          simp [lambda_handler, hcheck, hh, Except.map]
        · have hh : returnperiods ["v2", "returnperiods"] ⟨some ⟨some http, rcq⟩, oq⟩ rpStore =
              .ok { codeKey := "statesCode", code := 422, body := "Bad request: No reachID specified" } := rfl
          simp [lambda_handler, hcheck, hh, Except.map]
  · intro hpath
    obtain ⟨orc, oq⟩ := event
    cases orc with
    | none => simp [eventPath] at hpath
    | some rc =>
      obtain ⟨ohttp, rcq⟩ := rc
      cases ohttp with
      | none => simp [eventPath] at hpath
      | some http =>
        simp only [eventPath, Option.some.injEq] at hpath
        have hcheck : check_if_valid_request ⟨some ⟨some http, rcq⟩, oq⟩ = .inl ["v2"] := by
          simp [check_if_valid_request, hpath]
        simp [lambda_handler, hcheck, Exc.str]

/-- Counterexample for C6 as stated: the two-segment path `/v2/foo`
(fewer than 3 segments) is answered with a 200 success echoing the
event, not an error envelope. -/
theorem c6_short_path_counterexample :
    eventPath evTwoSegUnknown = some ["v2", "foo"] ∧
    (["v2", "foo"] : List String).length < 3 ∧
    lambda_handler evTwoSegUnknown [] [] =
      { codeKey := "statusCode", code := 200, body := jsonDumps evTwoSegUnknown } := by decide

/-- Witness for the amended C6: `/v2/retrospective` gets the 422
missing-reach-id envelope and `/v2` gets the 400 IndexError envelope. -/
theorem c6_amended_missing_reach_witness :
    lambda_handler evTwoSegRetro [] [] =
      { codeKey := "statesCode", code := 422, body := "Bad request: No reachID specified" } ∧
    lambda_handler evOnlyV2 [] [] =
      { codeKey := "statesCode", code := 400, body := "Bad request: list index out of range" } :=
  ⟨(c6_amended_missing_reach evTwoSegRetro [] []).1 "retrospective" (by decide) (by decide),
   (c6_amended_missing_reach evOnlyV2 [] []).2 (by decide)⟩

/-- C1: contrary to the claim, a `v2` path whose second segment is none
of the four recognized endpoint names falls through every dispatch
branch and is answered with a 200 success echoing `json.dumps(event)`
back, not an `UnknownEndpointError` envelope. -/
theorem c1_unknown_endpoint_echoes_event :
    eventPath evUnknownEndpoint = some ["v2", "forecast", "123"] ∧
    lambda_handler evUnknownEndpoint [] [] =
      { codeKey := "statusCode", code := 200, body := jsonDumps evUnknownEndpoint } := by decide

/-- C2: contrary to the claim, `format=json` never yields a 200: every
handler calls `to_json(index=False)` with the default orient, which
pandas rejects with `ValueError`, so the dispatcher's catch-all turns
the spec's own example request into a 400 error envelope. -/
theorem c2_format_json_valueerror :
    lambda_handler evFormatJson storeExample [] =
      { codeKey := "statesCode", code := 400,
        body := "Bad request: \x27index=False\x27 is only valid when \x27orient\x27 is \x27split\x27 or \x27table\x27" } := by
  decide

/-- C4: a first path segment other than `v2` does make
`check_if_valid_request` build the 422 `No V2 in [...]` envelope that
embeds the offending path, but `lambda_handler` then evaluates
`path[1]` on that error dict, raising `KeyError(1)`, so the client
instead receives the generic 400 envelope whose message is just
`Bad request: 1` — the offending value is lost. -/
theorem c4_invalid_version_dropped_envelope :
    check_if_valid_request evV1Version =
      .inr { codeKey := "statesCode", code := 422,
             body := "No V2 in " ++ pyListRepr ["v1", "retrospective", "123"] } ∧
    lambda_handler evV1Version [] [] =
      { codeKey := "statesCode", code := 400, body := "Bad request: 1" } := by decide
